import Mathlib

/-!
Shallow embedding of the two SMS-sending scripts of this repository:
`pinpoint/sms_sender.py` (project-scoped Pinpoint path) and
`sns/sms_sender.py` (simple-notification SNS path).

The provider SDK (`boto3`) is modelled as an explicit behaviour passed to each
function: a function from the request actually built by the code to an
`Except String` response, where `Except.error e` stands for an exception whose
`str(e)` is `e`.  Each embedded `send_sms` returns, besides its Python return
value or raised exception, the list of lines it printed and the list of
provider operations it issued, so that "no network call" and call ordering
are provable facts.
-/

/-- Python truthiness of an optional string: `None` and `""` are falsy,
every other string is truthy. -/
def pyTruthy : Option String → Bool
  | none => false
  | some s => !(s == "")

/-- Python `a or b` for optional strings (as in `project_id or PINPOINT_PROJECT_ID`). -/
def pyOrOpt (a b : Option String) : Option String :=
  if pyTruthy a then a else b

/-- The Python exceptions the scripts can raise or propagate. -/
inductive PyError where
  | valueError (msg : String)
  | keyError (key : String)
  | providerError (msg : String)
deriving Repr, DecidableEq

/-- `str(e)` for the modelled exceptions; Python renders a `KeyError` for key
`k` as `'k'` (the key wrapped in single quotes, `\x27`). -/
def PyError.str : PyError → String
  | .valueError m => m
  | .keyError k => "\x27" ++ k ++ "\x27"
  | .providerError m => m

/-- `os.getenv(name)`: the raw environment lookup, `none` when unset. -/
def getenv (env : String → Option String) (name : String) : Option String :=
  env name

/-- `os.getenv(name, default)`: the environment value when set, else the default. -/
def getenvD (env : String → Option String) (name default : String) : String :=
  (env name).getD default

/-- The `SMSMessage` part of the Pinpoint request body. -/
structure SmsMessage where
  Body : String
  MessageType : String
deriving Repr, DecidableEq

/-- The `MessageConfiguration` part of the Pinpoint request body. -/
structure MessageCfg where
  SMSMessage : SmsMessage
deriving Repr, DecidableEq

/-- The `MessageRequest` dict: addresses (phone to channel type) and configuration. -/
structure MessageRequest where
  Addresses : List (String × String)
  MessageCfg : MessageCfg
deriving Repr, DecidableEq

/-- The full argument of `pinpoint_client.send_messages`. -/
structure SendMessagesRequest where
  ApplicationId : String
  MessageRequest : MessageRequest
deriving Repr, DecidableEq

/-- A per-destination result record of the Pinpoint response, with optional
`MessageId`. -/
structure ResultRecord where
  StatusCode : Nat
  StatusMessage : String
  MessageId : Option String
deriving Repr, DecidableEq

/-- The `MessageResponse` dict: `Result` maps destination phone numbers to records. -/
structure MessageResponse where
  Result : List (String × ResultRecord)
deriving Repr, DecidableEq

/-- The whole Pinpoint `send_messages` response. -/
structure PinpointResponse where
  MessageResponse : MessageResponse
deriving Repr, DecidableEq

/-- The abstract `SendResult` record of the specification. -/
structure SendResult where
  statusCode : Nat
  statusMessage : String
  providerMessageId : Option String
deriving Repr, DecidableEq

/-- Python dict lookup `d[k]` on an association list, `none` for a `KeyError`. -/
def dictGet? (l : List (String × ResultRecord)) (k : String) : Option ResultRecord :=
  (l.find? (fun p => p.1 == k)).map (fun p => p.2)

/-- The `SendResult` the specification reads off a per-destination record. -/
def sendResultOfRecord (r : ResultRecord) : SendResult :=
  { statusCode := r.StatusCode
    statusMessage := r.StatusMessage
    providerMessageId := r.MessageId }

namespace pinpoint

/-- `AWS_ACCESS_KEY_ID = os.getenv("AWS_ACCESS_KEY_ID")` (no default). -/
def AWS_ACCESS_KEY_ID (env : String → Option String) : Option String :=
  getenv env "AWS_ACCESS_KEY_ID"

/-- `AWS_SECRET_ACCESS_KEY = os.getenv("AWS_SECRET_ACCESS_KEY")` (no default). -/
def AWS_SECRET_ACCESS_KEY (env : String → Option String) : Option String :=
  getenv env "AWS_SECRET_ACCESS_KEY"

/-- `AWS_REGION = os.getenv("AWS_REGION", "us-east-1")`. -/
def AWS_REGION (env : String → Option String) : String :=
  getenvD env "AWS_REGION" "us-east-1"

/-- `PINPOINT_PROJECT_ID = os.getenv("PINPOINT_PROJECT_ID")` (no default). -/
def PINPOINT_PROJECT_ID (env : String → Option String) : Option String :=
  getenv env "PINPOINT_PROJECT_ID"

/-- The message of the `ValueError` raised when no project id resolves. -/
def projectIdErrMsg : String :=
  "Pinpoint Project ID is required. Provide it as an argument or set PINPOINT_PROJECT_ID in .env file"

/-- The `send_messages` request the code builds: one address with channel type
`"SMS"`, and the body and message type under `MessageConfiguration.SMSMessage`. -/
def mkRequest (appId phone_number message message_type : String) : SendMessagesRequest :=
  { ApplicationId := appId
    MessageRequest :=
      { Addresses := [(phone_number, "SMS")]
        MessageCfg := { SMSMessage := { Body := message, MessageType := message_type } } } }

/-- The success line printed from the extracted result record. -/
def successLine (r : ResultRecord) : String :=
  "✅ SMS sent via Pinpoint! Status: " ++ toString r.StatusCode ++ " - " ++ r.StatusMessage

/-- The message-id line; `'N/A'` when the provider omitted `MessageId`. -/
def messageIdLine (r : ResultRecord) : String :=
  "   Message ID: " ++ r.MessageId.getD "N/A"

/-- The failure line printed in the `except` block, containing `str(e)`. -/
def failLine (e : String) : String :=
  "❌ Failed to send SMS via Pinpoint: " ++ e

/-- What one call of the Pinpoint `send_sms` does: its Python return value or
raised exception, the lines it printed, and the provider calls it issued. -/
structure Outcome where
  result : Except PyError PinpointResponse
  printed : List String
  calls : List SendMessagesRequest

/-- `pinpoint/sms_sender.py::send_sms`, with the provider's `send_messages`
operation and the module-level `PINPOINT_PROJECT_ID` passed explicitly. -/
def send_sms (send_messages : SendMessagesRequest → Except String PinpointResponse)
    (PINPOINT_PROJECT_ID : Option String)
    (phone_number message : String)
    (project_id : Option String) (message_type : String) : Outcome :=
  let pinpoint_project_id := pyOrOpt project_id PINPOINT_PROJECT_ID
  if pyTruthy pinpoint_project_id then
    let req := mkRequest (pinpoint_project_id.getD "") phone_number message message_type
    match send_messages req with
    | Except.error e =>
        { result := Except.error (PyError.providerError e)
          printed := [failLine e]
          calls := [req] }
    | Except.ok response =>
        match dictGet? response.MessageResponse.Result phone_number with
        | none =>
            { result := Except.error (PyError.keyError phone_number)
              printed := [failLine (PyError.str (PyError.keyError phone_number))]
              calls := [req] }
        | some r =>
            { result := Except.ok response
              printed := [successLine r, messageIdLine r]
              calls := [req] }
  else
    { result := Except.error (PyError.valueError projectIdErrMsg)
      printed := [failLine projectIdErrMsg]
      calls := [] }

/-- The `SendResult` the spec extracts from a response for a destination. -/
def extractSendResult (resp : PinpointResponse) (phone_number : String) : Option SendResult :=
  (dictGet? resp.MessageResponse.Result phone_number).map sendResultOfRecord

end pinpoint

namespace sns

/-- `AWS_ACCESS_KEY_ID = os.getenv("AWS_ACCESS_KEY_ID")` (no default). -/
def AWS_ACCESS_KEY_ID (env : String → Option String) : Option String :=
  getenv env "AWS_ACCESS_KEY_ID"

/-- `AWS_SECRET_ACCESS_KEY = os.getenv("AWS_SECRET_ACCESS_KEY")` (no default). -/
def AWS_SECRET_ACCESS_KEY (env : String → Option String) : Option String :=
  getenv env "AWS_SECRET_ACCESS_KEY"

/-- `AWS_REGION = os.getenv("AWS_REGION", "us-east-1")`. -/
def AWS_REGION (env : String → Option String) : String :=
  getenvD env "AWS_REGION" "us-east-1"

/-- The `publish` response: a message id. -/
structure SnsResponse where
  MessageId : String
deriving Repr, DecidableEq

/-- The provider operations the SNS script can issue. -/
inductive Call where
  | set_sms_attributes (attrs : List (String × String))
  | publish (PhoneNumber Message : String)
deriving Repr, DecidableEq

/-- A behaviour of the SNS client: what each operation returns or raises. -/
structure Behavior where
  set_attrs : Except String Unit
  publish : String → String → Except String SnsResponse

/-- The attributes dict passed by `set_sms_attributes`. -/
def attrsArg : List (String × String) := [("DefaultSMSType", "Transactional")]

/-- `sns/sms_sender.py::set_sms_attributes`: one provider call setting
`DefaultSMSType` to `"Transactional"`. -/
def set_sms_attributes (beh : Behavior) : Except String Unit × List Call :=
  (beh.set_attrs, [Call.set_sms_attributes attrsArg])

/-- The failure line printed in the `except` block, containing `str(e)`. -/
def failLine (e : String) : String :=
  "❌ Failed to send SMS: " ++ e

/-- The `try` body of the SNS `send_sms`: set attributes, then publish; an
`Except.error` is an exception escaping the body. -/
def sendBody (beh : Behavior) (phone_number message : String) :
    Except String (List String) × List Call :=
  match set_sms_attributes beh with
  | (Except.error e, calls) => (Except.error e, calls)
  | (Except.ok _, calls) =>
      match beh.publish phone_number message with
      | Except.error e => (Except.error e, calls ++ [Call.publish phone_number message])
      | Except.ok response =>
          (Except.ok ["✅ SMS sent! Message ID: " ++ response.MessageId],
           calls ++ [Call.publish phone_number message])

/-- `sns/sms_sender.py::send_sms`: the `try` body with a catch-all `except`
that prints the failure line and falls through, returning `None` (`Unit`). -/
def send_sms (beh : Behavior) (phone_number message : String) :
    Except PyError Unit × List String × List Call :=
  match sendBody beh phone_number message with
  | (Except.ok printed, calls) => (Except.ok (), printed, calls)
  | (Except.error e, calls) => (Except.ok (), [failLine e], calls)

end sns

/-- Helper: a non-empty string is Python-truthy as an optional string. -/
theorem pyTruthy_some_of_ne (s : String) (hs : s ≠ "") : pyTruthy (some s) = true := by
  simp [pyTruthy]
  exact hs

/-- Helper: with a truthy explicit argument, `project_id or PINPOINT_PROJECT_ID`
is the explicit argument. -/
theorem pyOrOpt_some_of_ne (s : String) (b : Option String) (hs : s ≠ "") :
    pyOrOpt (some s) b = some s := by
  simp [pyOrOpt, pyTruthy_some_of_ne s hs]

/-- C1: when the explicit `project_id` argument is absent and the default
`PINPOINT_PROJECT_ID` is also absent, the Pinpoint `send_sms` fails with the
configuration `ValueError` and the provider's `send_messages` is never invoked. -/
theorem C1_missing_project_id_no_call
    (send_messages : SendMessagesRequest → Except String PinpointResponse)
    (phone_number message message_type : String) :
    (pinpoint.send_sms send_messages none phone_number message none message_type).result =
      Except.error (PyError.valueError pinpoint.projectIdErrMsg) ∧
    (pinpoint.send_sms send_messages none phone_number message none message_type).calls = [] := by
  constructor <;> rfl

/-- C3 (amended reading of "present": a truthy, i.e. non-empty, explicit
argument): with an explicit non-empty `project_id`, the single provider call
carries the explicit value as `ApplicationId`, whatever the default is. -/
theorem C3_explicit_project_id_wins
    (send_messages : SendMessagesRequest → Except String PinpointResponse)
    (PINPOINT_PROJECT_ID : Option String)
    (phone_number message message_type p : String)
    (hp : p ≠ "") :
    (pinpoint.send_sms send_messages PINPOINT_PROJECT_ID phone_number message
        (some p) message_type).calls =
      [pinpoint.mkRequest p phone_number message message_type] := by
  have htr : pyTruthy (pyOrOpt (some p) PINPOINT_PROJECT_ID) = true := by
    rw [pyOrOpt_some_of_ne p _ hp]
    exact pyTruthy_some_of_ne p hp
  simp only [pinpoint.send_sms, pyOrOpt_some_of_ne p _ hp]
  rw [if_pos]
  · cases hsm : send_messages (pinpoint.mkRequest ((some p).getD "") phone_number message
        message_type) with
    | error e => simp [hsm]
    | ok response =>
        cases hr : dictGet? response.MessageResponse.Result phone_number with
        | none => simp [hsm, hr]
        | some r => simp [hsm, hr]
  · exact pyTruthy_some_of_ne p hp

/-- C3 witness: an explicit project id `"explicit"` with default `"default"`
configured ends up as the `ApplicationId` of the single provider call. -/
theorem C3_witness :
    (pinpoint.send_sms (fun _ => Except.ok ⟨⟨[]⟩⟩) (some "default") "+12363005078" "hello"
        (some "explicit") "TRANSACTIONAL").calls =
      [pinpoint.mkRequest "explicit" "+12363005078" "hello" "TRANSACTIONAL"] :=
  C3_explicit_project_id_wins (fun _ => Except.ok ⟨⟨[]⟩⟩) (some "default")
    "+12363005078" "hello" "TRANSACTIONAL" "explicit" (by decide)

/-- C5: on every SNS send, the trace of provider calls is either just the
`set_sms_attributes` call (when it raises) or that call followed by the
`publish` call: the attribute-setting call is issued first on every send, and
`publish` is never issued without it having been issued first on that send. -/
theorem C5_attributes_before_publish (beh : sns.Behavior) (phone_number message : String) :
    (sns.send_sms beh phone_number message).2.2 =
        [sns.Call.set_sms_attributes sns.attrsArg] ∨
    (sns.send_sms beh phone_number message).2.2 =
        [sns.Call.set_sms_attributes sns.attrsArg,
         sns.Call.publish phone_number message] := by
  cases ha : beh.set_attrs with
  | error e =>
      left
      simp [sns.send_sms, sns.sendBody, sns.set_sms_attributes, ha]
  | ok u =>
      right
      cases hp : beh.publish phone_number message with
      | error e => simp [sns.send_sms, sns.sendBody, sns.set_sms_attributes, ha, hp]
      | ok response => simp [sns.send_sms, sns.sendBody, sns.set_sms_attributes, ha, hp]

/-- C8: the SNS `send_sms` never propagates an exception: for every provider
behaviour (including ones whose attribute-setting or publish call raises) it
returns normally (`None`), and whenever an exception escapes the `try` body it
prints exactly the failure line containing that error's text. -/
theorem C8_sns_never_raises (beh : sns.Behavior) (phone_number message : String) :
    (sns.send_sms beh phone_number message).1 = Except.ok () ∧
    ∀ e, (sns.sendBody beh phone_number message).1 = Except.error e →
      (sns.send_sms beh phone_number message).2.1 = [sns.failLine e] := by
  cases ha : beh.set_attrs with
  | error e =>
      refine ⟨?_, ?_⟩
      · simp [sns.send_sms, sns.sendBody, sns.set_sms_attributes, ha]
      · intro e2 hb
        have he : e = e2 := by
          simpa [sns.sendBody, sns.set_sms_attributes, ha] using hb
        subst he
        simp [sns.send_sms, sns.sendBody, sns.set_sms_attributes, ha]
  | ok u =>
      cases hp : beh.publish phone_number message with
      | error e =>
          refine ⟨?_, ?_⟩
          · simp [sns.send_sms, sns.sendBody, sns.set_sms_attributes, ha, hp]
          · intro e2 hb
            have he : e = e2 := by
              simpa [sns.sendBody, sns.set_sms_attributes, ha, hp] using hb
            subst he
            simp [sns.send_sms, sns.sendBody, sns.set_sms_attributes, ha, hp]
      | ok response =>
          refine ⟨?_, ?_⟩
          · simp [sns.send_sms, sns.sendBody, sns.set_sms_attributes, ha, hp]
          · intro e2 hb
            simp [sns.sendBody, sns.set_sms_attributes, ha, hp] at hb

/-- C8 witness: a behaviour whose attribute-setting call raises makes the SNS
`send_sms` return normally and print exactly the failure line for that error. -/
theorem C8_witness :
    (sns.send_sms ⟨Except.error "attr boom", fun _ _ => Except.ok ⟨"mid"⟩⟩
        "+12363005078" "hello").1 = Except.ok () ∧
    (sns.send_sms ⟨Except.error "attr boom", fun _ _ => Except.ok ⟨"mid"⟩⟩
        "+12363005078" "hello").2.1 = [sns.failLine "attr boom"] :=
  ⟨(C8_sns_never_raises ⟨Except.error "attr boom", fun _ _ => Except.ok ⟨"mid"⟩⟩
      "+12363005078" "hello").1,
   (C8_sns_never_raises ⟨Except.error "attr boom", fun _ _ => Except.ok ⟨"mid"⟩⟩
      "+12363005078" "hello").2 "attr boom" rfl⟩

/-- C9: an explicit empty-string `project_id` is treated exactly like an absent
one (Python truthiness in `project_id or PINPOINT_PROJECT_ID`), and when the
default is also unset or empty the call fails with the configuration
`ValueError` and issues no provider call. -/
theorem C9_empty_project_id_falls_back
    (send_messages : SendMessagesRequest → Except String PinpointResponse)
    (PINPOINT_PROJECT_ID : Option String)
    (phone_number message message_type : String)
    (hdef : pyTruthy PINPOINT_PROJECT_ID = false) :
    (∀ d : Option String,
        pinpoint.send_sms send_messages d phone_number message (some "") message_type =
          pinpoint.send_sms send_messages d phone_number message none message_type) ∧
    (pinpoint.send_sms send_messages PINPOINT_PROJECT_ID phone_number message
        (some "") message_type).result =
      Except.error (PyError.valueError pinpoint.projectIdErrMsg) ∧
    (pinpoint.send_sms send_messages PINPOINT_PROJECT_ID phone_number message
        (some "") message_type).calls = [] := by
  have hor : ∀ d : Option String, pyOrOpt (some "") d = d := fun d => rfl
  refine ⟨fun d => rfl, ?_, ?_⟩ <;>
    · simp only [pinpoint.send_sms, hor, hdef]
      rfl

/-- C9 witness: with explicit `project_id = ""` and no default configured, the
call fails with the configuration `ValueError`, no provider call is made, and
the outcome coincides with the absent-argument one. -/
theorem C9_witness :
    (∀ d : Option String,
        pinpoint.send_sms (fun _ => Except.ok ⟨⟨[]⟩⟩) d "+12363005078" "hello"
            (some "") "TRANSACTIONAL" =
          pinpoint.send_sms (fun _ => Except.ok ⟨⟨[]⟩⟩) d "+12363005078" "hello"
            none "TRANSACTIONAL") ∧
    (pinpoint.send_sms (fun _ => Except.ok ⟨⟨[]⟩⟩) none "+12363005078" "hello"
        (some "") "TRANSACTIONAL").result =
      Except.error (PyError.valueError pinpoint.projectIdErrMsg) ∧
    (pinpoint.send_sms (fun _ => Except.ok ⟨⟨[]⟩⟩) none "+12363005078" "hello"
        (some "") "TRANSACTIONAL").calls = [] :=
  C9_empty_project_id_falls_back (fun _ => Except.ok ⟨⟨[]⟩⟩) none
    "+12363005078" "hello" "TRANSACTIONAL" (by decide)

/-- C10: a provider response that succeeds but whose `Result` mapping lacks an
entry for the destination makes the Pinpoint `send_sms` raise the `KeyError`
for the phone number after the provider call: the failure line is printed, the
provider was called, and the response is not returned. -/
theorem C10_missing_result_entry :
    (pinpoint.send_sms (fun _ => Except.ok ⟨⟨[]⟩⟩) (some "proj") "+12363005078" "hello"
        none "TRANSACTIONAL").result =
      Except.error (PyError.keyError "+12363005078") ∧
    (pinpoint.send_sms (fun _ => Except.ok ⟨⟨[]⟩⟩) (some "proj") "+12363005078" "hello"
        none "TRANSACTIONAL").printed =
      [pinpoint.failLine (PyError.str (PyError.keyError "+12363005078"))] ∧
    (pinpoint.send_sms (fun _ => Except.ok ⟨⟨[]⟩⟩) (some "proj") "+12363005078" "hello"
        none "TRANSACTIONAL").calls =
      [pinpoint.mkRequest "proj" "+12363005078" "hello" "TRANSACTIONAL"] := by
  refine ⟨?_, ?_, ?_⟩ <;> rfl

/-- C2 counterexample: on the simple-notification path, a provider whose
publish call raises does not make `send_sms` propagate anything: the call
returns normally (`None`) after printing the failure line, so the claim that
both paths propagate a `ProviderError` is false. -/
theorem C2_counterexample_sns_swallows :
    (sns.send_sms ⟨Except.ok (), fun _ _ => Except.error "publish failed"⟩
        "+12363005078" "hello").1 = Except.ok () ∧
    (sns.send_sms ⟨Except.ok (), fun _ _ => Except.error "publish failed"⟩
        "+12363005078" "hello").2.1 = [sns.failLine "publish failed"] := by
  constructor <;> rfl

/-- C2 amended: on the project-scoped path every provider exception is logged
as a one-line failure diagnostic containing the error text and re-raised to
the caller (no success result is returned); on the simple-notification path
the exception is logged the same way but swallowed: `send_sms` returns `None`
normally. -/
theorem C2_amended_provider_errors
    (send_messages : SendMessagesRequest → Except String PinpointResponse)
    (d phone_number message message_type e : String)
    (beh : sns.Behavior) (e2 : String)
    (hd : d ≠ "")
    (hsm : send_messages (pinpoint.mkRequest d phone_number message message_type) =
      Except.error e)
    (hattr : beh.set_attrs = Except.ok ())
    (hpub : beh.publish phone_number message = Except.error e2) :
    ((pinpoint.send_sms send_messages (some d) phone_number message none message_type).result =
        Except.error (PyError.providerError e) ∧
     (pinpoint.send_sms send_messages (some d) phone_number message none message_type).printed =
        [pinpoint.failLine e]) ∧
    ((sns.send_sms beh phone_number message).1 = Except.ok () ∧
     (sns.send_sms beh phone_number message).2.1 = [sns.failLine e2]) := by
  have hor : pyOrOpt none (some d) = some d := rfl
  constructor
  · constructor <;>
      · simp only [pinpoint.send_sms, hor]
        rw [if_pos (pyTruthy_some_of_ne d hd)]
        simp only [Option.getD, hsm]
  · constructor <;>
      simp [sns.send_sms, sns.sendBody, sns.set_sms_attributes, hattr, hpub]

/-- C2 witness: concrete providers that raise on the send operation make the
Pinpoint path raise the wrapped error with the failure line, and the SNS path
swallow it with the failure line. -/
theorem C2_witness :
    ((pinpoint.send_sms (fun _ => Except.error "boom") (some "proj") "+12363005078" "hello"
          none "TRANSACTIONAL").result = Except.error (PyError.providerError "boom") ∧
     (pinpoint.send_sms (fun _ => Except.error "boom") (some "proj") "+12363005078" "hello"
          none "TRANSACTIONAL").printed = [pinpoint.failLine "boom"]) ∧
    ((sns.send_sms ⟨Except.ok (), fun _ _ => Except.error "crash"⟩ "+12363005078" "hello").1 =
        Except.ok () ∧
     (sns.send_sms ⟨Except.ok (), fun _ _ => Except.error "crash"⟩ "+12363005078" "hello").2.1 =
        [sns.failLine "crash"]) :=
  C2_amended_provider_errors (fun _ => Except.error "boom") "proj" "+12363005078" "hello"
    "TRANSACTIONAL" "boom" ⟨Except.ok (), fun _ _ => Except.error "crash"⟩ "crash"
    (by decide) rfl rfl rfl

/-- C4: with a default project id configured, a successful provider response
whose `Result` mapping has a record for the destination phone number makes
`send_sms` return the response, print the status and the message id (with
`N/A` exactly where the record omits `MessageId`), and the record extracted by
destination yields the `SendResult` with matching fields. -/
theorem C4_success_send_result
    (send_messages : SendMessagesRequest → Except String PinpointResponse)
    (d phone_number message message_type : String)
    (resp : PinpointResponse) (r : ResultRecord)
    (hd : d ≠ "")
    (hsm : send_messages (pinpoint.mkRequest d phone_number message message_type) =
      Except.ok resp)
    (hr : dictGet? resp.MessageResponse.Result phone_number = some r) :
    (pinpoint.send_sms send_messages (some d) phone_number message none message_type).result =
      Except.ok resp ∧
    (pinpoint.send_sms send_messages (some d) phone_number message none message_type).printed =
      [pinpoint.successLine r, "   Message ID: " ++ r.MessageId.getD "N/A"] ∧
    pinpoint.extractSendResult resp phone_number =
      some ⟨r.StatusCode, r.StatusMessage, r.MessageId⟩ := by
  have hor : pyOrOpt none (some d) = some d := rfl
  refine ⟨?_, ?_, ?_⟩
  · simp only [pinpoint.send_sms, hor]
    rw [if_pos (pyTruthy_some_of_ne d hd)]
    simp only [Option.getD, hsm, hr]
  · simp only [pinpoint.send_sms, hor]
    rw [if_pos (pyTruthy_some_of_ne d hd)]
    simp only [Option.getD, hsm, hr]
    rfl
  · simp [pinpoint.extractSendResult, hr, sendResultOfRecord]

/-- C4 witness: the spec's concrete example — destination `"+12363005078"`,
body `"hello"`, configured default project id, provider response
`{StatusCode: 200, StatusMessage: "SUCCESSFUL", MessageId: "abc123"}` — yields
the response back and `SendResult{200, "SUCCESSFUL", "abc123"}`. -/
theorem C4_witness :
    (pinpoint.send_sms
        (fun _ => Except.ok ⟨⟨[("+12363005078", ⟨200, "SUCCESSFUL", some "abc123"⟩)]⟩⟩)
        (some "proj") "+12363005078" "hello" none "TRANSACTIONAL").result =
      Except.ok ⟨⟨[("+12363005078", ⟨200, "SUCCESSFUL", some "abc123"⟩)]⟩⟩ ∧
    (pinpoint.send_sms
        (fun _ => Except.ok ⟨⟨[("+12363005078", ⟨200, "SUCCESSFUL", some "abc123"⟩)]⟩⟩)
        (some "proj") "+12363005078" "hello" none "TRANSACTIONAL").printed =
      [pinpoint.successLine ⟨200, "SUCCESSFUL", some "abc123"⟩,
       "   Message ID: " ++ (some "abc123").getD "N/A"] ∧
    pinpoint.extractSendResult ⟨⟨[("+12363005078", ⟨200, "SUCCESSFUL", some "abc123"⟩)]⟩⟩
        "+12363005078" =
      some ⟨200, "SUCCESSFUL", some "abc123"⟩ :=
  C4_success_send_result
    (fun _ => Except.ok ⟨⟨[("+12363005078", ⟨200, "SUCCESSFUL", some "abc123"⟩)]⟩⟩)
    "proj" "+12363005078" "hello" "TRANSACTIONAL"
    ⟨⟨[("+12363005078", ⟨200, "SUCCESSFUL", some "abc123"⟩)]⟩⟩
    ⟨200, "SUCCESSFUL", some "abc123"⟩ (by decide) rfl (by decide)

/-- Helper: when the resolved project id is truthy the Pinpoint send issues
exactly one provider call, carrying the resolved id as `ApplicationId`. -/
theorem pinpoint_send_calls_of_truthy
    (send_messages : SendMessagesRequest → Except String PinpointResponse)
    (PINPOINT_PROJECT_ID project_id : Option String)
    (phone_number message message_type : String)
    (h : pyTruthy (pyOrOpt project_id PINPOINT_PROJECT_ID) = true) :
    (pinpoint.send_sms send_messages PINPOINT_PROJECT_ID phone_number message
        project_id message_type).calls =
      [pinpoint.mkRequest ((pyOrOpt project_id PINPOINT_PROJECT_ID).getD "")
          phone_number message message_type] := by
  simp only [pinpoint.send_sms]
  rw [if_pos h]
  cases hsm : send_messages (pinpoint.mkRequest
      ((pyOrOpt project_id PINPOINT_PROJECT_ID).getD "") phone_number message
      message_type) with
  | error e => simp [hsm]
  | ok response =>
      cases hr : dictGet? response.MessageResponse.Result phone_number with
      | none => simp [hsm, hr]
      | some r => simp [hsm, hr]

/-- Helper: when the resolved project id is truthy the Pinpoint send never
fails with the configuration `ValueError`. -/
theorem pinpoint_send_result_ne_config_of_truthy
    (send_messages : SendMessagesRequest → Except String PinpointResponse)
    (PINPOINT_PROJECT_ID project_id : Option String)
    (phone_number message message_type : String)
    (h : pyTruthy (pyOrOpt project_id PINPOINT_PROJECT_ID) = true) :
    (pinpoint.send_sms send_messages PINPOINT_PROJECT_ID phone_number message
        project_id message_type).result ≠
      Except.error (PyError.valueError pinpoint.projectIdErrMsg) := by
  simp only [pinpoint.send_sms]
  rw [if_pos h]
  cases hsm : send_messages (pinpoint.mkRequest
      ((pyOrOpt project_id PINPOINT_PROJECT_ID).getD "") phone_number message
      message_type) with
  | error e => simp [hsm]
  | ok response =>
      cases hr : dictGet? response.MessageResponse.Result phone_number with
      | none => simp [hsm, hr]
      | some r => simp [hsm, hr]

/-- Helper: when the resolved project id is falsy the Pinpoint send fails with
the configuration `ValueError` before any provider call. -/
theorem pinpoint_send_of_falsy
    (send_messages : SendMessagesRequest → Except String PinpointResponse)
    (PINPOINT_PROJECT_ID project_id : Option String)
    (phone_number message message_type : String)
    (h : pyTruthy (pyOrOpt project_id PINPOINT_PROJECT_ID) = false) :
    pinpoint.send_sms send_messages PINPOINT_PROJECT_ID phone_number message
        project_id message_type =
      ⟨Except.error (PyError.valueError pinpoint.projectIdErrMsg),
       [pinpoint.failLine pinpoint.projectIdErrMsg], []⟩ := by
  simp only [pinpoint.send_sms]
  rw [if_neg]
  simp [h]

/-- C6 counterexample: with an empty destination and an empty body, both paths
still contact the provider — the Pinpoint send (given a configured project id)
issues its call carrying the empty strings, and the SNS send issues the
attribute call and the publish with the empty strings — so the claim that the
provider call does not proceed unless destination and body are non-empty is
false on either path. -/
theorem C6_counterexample_empty_destination :
    (pinpoint.send_sms (fun _ => Except.ok ⟨⟨[]⟩⟩) (some "proj") "" ""
        none "TRANSACTIONAL").calls =
      [pinpoint.mkRequest "proj" "" "" "TRANSACTIONAL"] ∧
    (sns.send_sms ⟨Except.ok (), fun _ _ => Except.ok ⟨"mid"⟩⟩ "" "").2.2 =
      [sns.Call.set_sms_attributes sns.attrsArg, sns.Call.publish "" ""] := by
  constructor <;> rfl

/-- C6 amended: only the project identifier is validated, and only on the
project-scoped path: the Pinpoint provider call is issued exactly when the
project id resolves to a truthy value, the outcome is the configuration
`ValueError` exactly when it does not, and on both paths the destination and
body are forwarded unchecked (empty or not) — the SNS send always issues the
attribute call and, when that call returns, the publish carrying exactly the
given destination and body. -/
theorem C6_amended_only_project_id_checked
    (send_messages : SendMessagesRequest → Except String PinpointResponse)
    (project_id PINPOINT_PROJECT_ID : Option String)
    (beh : sns.Behavior)
    (phone_number message message_type : String) :
    (pinpoint.send_sms send_messages PINPOINT_PROJECT_ID phone_number message
        project_id message_type).calls =
      (if pyTruthy (pyOrOpt project_id PINPOINT_PROJECT_ID) then
        [pinpoint.mkRequest ((pyOrOpt project_id PINPOINT_PROJECT_ID).getD "")
            phone_number message message_type]
       else []) ∧
    (pyTruthy (pyOrOpt project_id PINPOINT_PROJECT_ID) = false ↔
      (pinpoint.send_sms send_messages PINPOINT_PROJECT_ID phone_number message
          project_id message_type).result =
        Except.error (PyError.valueError pinpoint.projectIdErrMsg)) ∧
    (sns.send_sms beh phone_number message).2.2 =
      sns.Call.set_sms_attributes sns.attrsArg ::
        (match beh.set_attrs with
         | Except.ok _ => [sns.Call.publish phone_number message]
         | Except.error _ => []) := by
  refine ⟨?_, ?_, ?_⟩
  · cases h : pyTruthy (pyOrOpt project_id PINPOINT_PROJECT_ID) with
    | false =>
        rw [pinpoint_send_of_falsy send_messages PINPOINT_PROJECT_ID project_id
          phone_number message message_type h]
        simp [h]
    | true =>
        rw [pinpoint_send_calls_of_truthy send_messages PINPOINT_PROJECT_ID project_id
          phone_number message message_type h]
        simp [h]
  · cases h : pyTruthy (pyOrOpt project_id PINPOINT_PROJECT_ID) with
    | false =>
        rw [pinpoint_send_of_falsy send_messages PINPOINT_PROJECT_ID project_id
          phone_number message message_type h]
        simp
    | true =>
        constructor
        · intro hc; exact absurd hc (by simp)
        · intro hres
          exact ((pinpoint_send_result_ne_config_of_truthy send_messages
            PINPOINT_PROJECT_ID project_id phone_number message message_type h) hres).elim
  · cases ha : beh.set_attrs with
    | error e => simp [sns.send_sms, sns.sendBody, sns.set_sms_attributes, ha]
    | ok u =>
        cases hp : beh.publish phone_number message with
        | error e => simp [sns.send_sms, sns.sendBody, sns.set_sms_attributes, ha, hp]
        | ok response => simp [sns.send_sms, sns.sendBody, sns.set_sms_attributes, ha, hp]

/-- C7: when the region environment variable is unset both modules default the
region to `"us-east-1"`, while the access key, secret key and (Pinpoint only)
project id are plain environment lookups with no default. -/
theorem C7_config_defaults (env : String → Option String)
    (h : env "AWS_REGION" = none) :
    pinpoint.AWS_REGION env = "us-east-1" ∧
    sns.AWS_REGION env = "us-east-1" ∧
    pinpoint.AWS_ACCESS_KEY_ID env = env "AWS_ACCESS_KEY_ID" ∧
    pinpoint.AWS_SECRET_ACCESS_KEY env = env "AWS_SECRET_ACCESS_KEY" ∧
    pinpoint.PINPOINT_PROJECT_ID env = env "PINPOINT_PROJECT_ID" ∧
    sns.AWS_ACCESS_KEY_ID env = env "AWS_ACCESS_KEY_ID" ∧
    sns.AWS_SECRET_ACCESS_KEY env = env "AWS_SECRET_ACCESS_KEY" := by
  refine ⟨?_, ?_, rfl, rfl, rfl, rfl, rfl⟩ <;>
    simp [pinpoint.AWS_REGION, sns.AWS_REGION, getenvD, h]

/-- C7 witness: in the empty environment both regions are `"us-east-1"` and
the keyed lookups are all `none`. -/
theorem C7_witness :
    pinpoint.AWS_REGION (fun _ => none) = "us-east-1" ∧
    sns.AWS_REGION (fun _ => none) = "us-east-1" ∧
    pinpoint.AWS_ACCESS_KEY_ID (fun _ => none) = (fun _ : String => (none : Option String)) "AWS_ACCESS_KEY_ID" ∧
    pinpoint.AWS_SECRET_ACCESS_KEY (fun _ => none) = (fun _ : String => (none : Option String)) "AWS_SECRET_ACCESS_KEY" ∧
    pinpoint.PINPOINT_PROJECT_ID (fun _ => none) = (fun _ : String => (none : Option String)) "PINPOINT_PROJECT_ID" ∧
    sns.AWS_ACCESS_KEY_ID (fun _ => none) = (fun _ : String => (none : Option String)) "AWS_ACCESS_KEY_ID" ∧
    sns.AWS_SECRET_ACCESS_KEY (fun _ => none) = (fun _ : String => (none : Option String)) "AWS_SECRET_ACCESS_KEY" :=
  C7_config_defaults (fun _ => none) rfl
